import Mathlib

/-!
Shallow embedding of the cruw-backend API service (src/cruw-backend/index.js).

Conventions of the embedding:
* MongoDB ObjectId values are modelled as a wrapper around the hex string the
  client supplied; `ObjectId.isValid` mirrors the bson string check
  (12-character string, or 24 hex characters).
* `Date` values are modelled as non-negative milliseconds since the Unix epoch
  (`Nat`); `setUTCHours(0,0,0,0)` on a timestamp `t` is `t - t % 86400000` and
  `setUTCHours(23,59,59,999)` is that value plus `86399999`.
* JSON request/response bodies whose exact key set matters (habit creation,
  user creation) are modelled as association lists of `String × JsValue`; the
  JS object-spread override `{...a, k: v}` is modelled by a lookup-equivalent
  `Doc.set`.
* Collections are Lean lists; `find` is `List.filter`, `findOne` is
  `List.find?`, `insertOne` appends.  Uniqueness indexes (duplicate-key 409
  paths) are not modelled; no claim below depends on them.
* Each read handler also returns the list of database operations it issued, in
  order, so that "no storage access before the response" is statable.
* Thrown JS exceptions (`new ObjectId` on an invalid string throws a
  BSONError; property access on `undefined` throws a TypeError) are modelled
  with `Except JsError`.
-/

/-- A BSON ObjectId, carrying the string it was constructed from. -/
structure ObjectId where
  hex : String
deriving DecidableEq, Repr

/-- Hex-digit test used by the 24-character ObjectId check. -/
def isHexChar (c : Char) : Bool :=
  c.isDigit || "abcdefABCDEF".toList.contains c

/-- bson `ObjectId.isValid` on a string: a 12-character string or a
24-character hex string. -/
def ObjectId.isValid (s : String) : Bool :=
  s.length == 12 || (s.length == 24 && s.toList.all isHexChar)

/-- Exceptions thrown by the modelled JS runtime. -/
inductive JsError where
  | bsonError
  | typeError
deriving DecidableEq, Repr

/-- The JS expression `new ObjectId(s)`: returns the id when the string is
valid, throws a BSONError otherwise. -/
def objectIdNew (s : String) : Except JsError ObjectId :=
  if ObjectId.isValid s then .ok ⟨s⟩ else .error .bsonError

/-- A JSON-ish value as stored in documents and response bodies. -/
inductive JsValue where
  | str : String → JsValue
  | num : Nat → JsValue
  | oid : ObjectId → JsValue
  | date : Nat → JsValue
  | doc : List (String × JsValue) → JsValue
  | arr : List JsValue → JsValue

/-- A JS object / BSON document: an association list of fields. -/
abbrev Doc := List (String × JsValue)

/-- Field lookup on a document (first binding wins). -/
def Doc.get : Doc → String → Option JsValue
  | [], _ => none
  | (k, v) :: rest, key => if k == key then some v else Doc.get rest key

/-- The JS object-spread override `{...d, key: v}`: the result maps `key` to
`v` and every other key to its value in `d`.  (The JS spread keeps the
original key position; this model moves the overridden key to the end, which
is lookup-equivalent.) -/
def Doc.set (d : Doc) (key : String) (v : JsValue) : Doc :=
  d.filter (fun p => !(p.1 == key)) ++ [(key, v)]

/-- JS truthiness for the modelled values (objects, arrays, dates and ids are
always truthy; empty strings and zero are falsy). -/
def JsValue.truthy : JsValue → Bool
  | .str s => !(s == "")
  | .num n => !(n == 0)
  | .oid _ => true
  | .date _ => true
  | .doc _ => true
  | .arr _ => true

/-- The JS test `obj.key` used as a boolean: false when the field is absent or
falsy. -/
def Doc.truthyGet (d : Doc) (key : String) : Bool :=
  match d.get key with
  | some v => v.truthy
  | none => false

/-- An HTTP response: a success payload with a status, or an error status with
the `message` field of the JSON error body. -/
inductive ApiResponse (α : Type) where
  | ok (status : Nat) (body : α)
  | err (status : Nat) (message : String)
deriving DecidableEq, Repr

/-- A database operation issued by a handler, in execution order. -/
inductive DbOp where
  | findOne (coll : String)
  | find (coll : String)
  | aggregate (coll : String)
  | insertOne (coll : String)
deriving DecidableEq, Repr

/-! ## Stored documents -/

/-- A stored user document (collection `users`). -/
structure UserDoc where
  _id : ObjectId
  username : String
  email : String
  password : String
  createdAt : Nat
deriving DecidableEq, Repr

/-- The `assignedTo` variant of a habit. -/
structure AssignedTo where
  type : String
  id : ObjectId
deriving DecidableEq, Repr

/-- A stored habit document (collection `habits`). -/
structure HabitDoc where
  _id : ObjectId
  title : String
  createdBy : ObjectId
  assignedTo : AssignedTo
  schedule : String
  createdAt : Nat
deriving DecidableEq, Repr

/-- A stored group document (collection `groups`). -/
structure GroupDoc where
  _id : ObjectId
  name : String
  description : Option String
  ownerId : ObjectId
  memberIds : List ObjectId
  createdAt : Nat
deriving DecidableEq, Repr

/-- A stored user habit entry (collection `userHabitEntries`). -/
structure UserHabitEntryDoc where
  habitId : ObjectId
  userId : ObjectId
  date : Nat
  status : String
  notes : Option String
deriving DecidableEq, Repr

/-- A stored group habit entry (collection `groupHabitEntries`).  The store is
schemaless, so a `userId` field is representable (`Option`); the only writer
in this codebase, `POST /api/groupHabitEntries`, never sets it (see
`createGroupHabitEntry` and `createGroupHabitEntry_userId_none`). -/
structure GroupHabitEntryDoc where
  habitId : ObjectId
  groupId : ObjectId
  date : Nat
  checkedBy : List ObjectId
  notes : List (String × String)
  userId : Option ObjectId
deriving DecidableEq, Repr

/-- The whole document store. -/
structure Db where
  users : List UserDoc
  groups : List GroupDoc
  habits : List HabitDoc
  userHabitEntries : List UserHabitEntryDoc
  groupHabitEntries : List GroupHabitEntryDoc
deriving DecidableEq, Repr

/-! ## POST /api/habits (index.js lines 78-134) -/

/-- The `habitToInsert` object (index.js lines 114-123): the request body
spread first, then `createdBy`, `assignedTo` and `createdAt` overriding; the
`createdAt` override is the server clock `now`. -/
def habitToInsert (body : Doc) (cb aid : String) (typeVal : JsValue) (now : Nat) : Doc :=
  ((body.set "createdBy" (.oid ⟨cb⟩)).set "assignedTo"
      (.doc [("type", typeVal), ("id", .oid ⟨aid⟩)])).set "createdAt" (.date now)

/-- Handler of `POST /api/habits`.  `now` is the server clock at
`new Date()`, `newId` the `_id` MongoDB assigns.  Returns the response and
the document inserted, if any.  Ids arriving in a JSON body are strings, so
only string-valued `createdBy` and `assignedTo.id` pass the ObjectId check. -/
def createHabit (body : Doc) (now : Nat) (newId : ObjectId) :
    ApiResponse Doc × Option Doc :=
  if !(body.truthyGet "title" && body.truthyGet "createdBy" &&
       body.truthyGet "assignedTo" && body.truthyGet "schedule") then
    (.err 400 "Missing required habit data (title, createdBy, assignedTo, or schedule).", none)
  else
    let aDoc : Doc :=
      match body.get "assignedTo" with
      | some (.doc a) => a
      | _ => []
    if !(aDoc.truthyGet "type" && aDoc.truthyGet "id") then
      (.err 400 "Invalid assignedTo format.", none)
    else
      match body.get "createdBy", aDoc.get "id" with
      | some (.str cb), some (.str aid) =>
        if !(ObjectId.isValid cb && ObjectId.isValid aid) then
          (.err 400 "Invalid ID format for createdBy or assignedTo.id.", none)
        else
          let typeVal : JsValue := (aDoc.get "type").getD (.str "")
          let h := habitToInsert body cb aid typeVal now
          (.ok 201 [("message", .str "Habit created successfully!"),
                    ("insertedId", .oid newId), ("insertedHabit", .doc h)], some h)
      | _, _ => (.err 400 "Invalid ID format for createdBy or assignedTo.id.", none)

theorem Doc.get_append_of_forall_ne (d : Doc) (k : String) (v : JsValue)
    (h : ∀ p ∈ d, (p.1 == k) = false) :
    Doc.get (d ++ [(k, v)]) k = some v := by
  induction d with
  | nil => simp [Doc.get]
  | cons p rest ih =>
    have hp := h p (by simp)
    simp only [List.cons_append, Doc.get, hp]
    exact ih (fun q hq => h q (by simp [hq]))

theorem Doc.get_set_self (d : Doc) (k : String) (v : JsValue) :
    Doc.get (Doc.set d k v) k = some v := by
  unfold Doc.set
  refine Doc.get_append_of_forall_ne _ _ _ ?_
  intro p hp
  have := List.of_mem_filter hp
  simpa using this

/-! ## POST /api/users (index.js lines 140-200) -/

/-- The `userToInsert` document (index.js lines 173-181): an explicit
allow-list of fields, with the password replaced by its bcrypt hash.
`bcryptHash` abstracts `bcrypt.hash(password, salt)` with the salt generated
at cost factor 10. -/
def userToInsert (bcryptHash : String → String) (username email password : String)
    (now : Nat) : Doc :=
  [("username", .str username), ("email", .str email),
   ("password", .str (bcryptHash password)), ("createdAt", .date now)]

/-- Handler of `POST /api/users`.  Returns the response and the inserted
document, if any.  The duplicate-key 409 path (unique index on email or
username) is not modelled. -/
def createUser (bcryptHash : String → String)
    (username email password : Option String) (now : Nat) (newId : ObjectId) :
    ApiResponse Doc × Option Doc :=
  match username, email, password with
  | some u, some e, some pw =>
    let stored := userToInsert bcryptHash u e pw now
    (.ok 201 [("message", .str "User created successfully!"),
              ("insertedId", .oid newId), ("username", .str u), ("email", .str e)],
     some stored)
  | _, _, _ =>
    (.err 400 "Missing required user data (username, email, password).", none)

/-! ## POST /api/auth/login (index.js lines 205-261) -/

/-- Handler of `POST /api/auth/login`.  `compare` abstracts
`bcrypt.compare(password, storedHash)` and `sign` abstracts
`jwt.sign({id, username}, secret, ...)`; the success body carries the token. -/
def login (compare : String → String → Bool) (sign : ObjectId → String → String)
    (email password : Option String) (db : Db) : ApiResponse String :=
  match email, password with
  | some e, some pw =>
    match db.users.find? (fun u => u.email == e) with
    | none => .err 401 "Invalid email or password."
    | some user =>
      if compare pw user.password then .ok 200 (sign user._id user.username)
      else .err 401 "Invalid email or password."
  | _, _ => .err 400 "Missing email or password."

/-! ## POST /api/groups (index.js lines 265-332) -/

/-- The parsed body of a group-creation request.  `none` models an absent (or
JS-falsy) field. -/
structure GroupBody where
  name : Option String
  description : Option String
  ownerId : Option String
  memberIds : Option (List String)
deriving DecidableEq, Repr

/-- The JS `Array.prototype.map` with a throwing callback `new ObjectId`:
stops at the first invalid element. -/
def mapObjectIdNew : List String → Except JsError (List ObjectId)
  | [] => .ok []
  | s :: rest => do
    let o ← objectIdNew s
    let os ← mapObjectIdNew rest
    pure (o :: os)

/-- The body of the `try` block of the group-creation handler (index.js lines
288-317), up to (but not including) `insertOne`: builds `groupToInsert`
(index.js lines 295-303, whose `memberIds` line converts every provided
member id with the throwing `new ObjectId`), and only then runs the
member-id validation loop (index.js lines 306-313) that returns 400.
`Sum.inl` is an early 400 response, `Sum.inr` the document to insert. -/
def createGroupTry (body : GroupBody) (name ownerId : String) (now : Nat)
    (newId : ObjectId) : Except JsError (Sum (ApiResponse GroupDoc) GroupDoc) := do
  let ownerOid ← objectIdNew ownerId
  let memberOids ←
    match body.memberIds with
    | some ids => mapObjectIdNew ids
    | none => pure [ownerOid]
  let groupToInsert : GroupDoc :=
    { _id := newId, name := name, description := body.description,
      ownerId := ownerOid, memberIds := memberOids, createdAt := now }
  match body.memberIds with
  | some ids =>
    match ids.find? (fun i => !(ObjectId.isValid i)) with
    | some i => pure (.inl (.err 400 ("Invalid memberId format: " ++ i)))
    | none => pure (.inr groupToInsert)
  | none => pure (.inr groupToInsert)

/-- Handler of `POST /api/groups`.  Returns the response and the updated
`groups` collection.  A thrown BSONError lands in the `catch` block, whose
`error.code === 11000` test fails, so it answers 500 "Failed to create
group." (the response body also carries `error.message`, not modelled). -/
def createGroup (body : GroupBody) (now : Nat) (newId : ObjectId)
    (groups : List GroupDoc) : ApiResponse GroupDoc × List GroupDoc :=
  match body.name, body.ownerId with
  | some name, some ownerId =>
    if !(ObjectId.isValid ownerId) then
      (.err 400 ("Invalid ownerId format: " ++ ownerId), groups)
    else
      match createGroupTry body name ownerId now newId with
      | .ok (.inl r) => (r, groups)
      | .ok (.inr g) => (.ok 201 g, groups ++ [g])
      | .error _ => (.err 500 "Failed to create group.", groups)
  | _, _ => (.err 400 "Missing required group data (name, ownerId).", groups)

/-! ## POST /api/userHabitEntries (index.js lines 336-388) -/

/-- The parsed body of a personal log-entry request; `date` is the parsed
`new Date(...)` value in milliseconds. -/
structure UserEntryBody where
  habitId : Option String
  userId : Option String
  date : Option Nat
  status : Option String
  notes : Option String
deriving DecidableEq, Repr

/-- Handler of `POST /api/userHabitEntries`.  Note that it checks only the
format of `habitId`, never that a habit document with that id exists. -/
def createUserHabitEntry (body : UserEntryBody)
    (entries : List UserHabitEntryDoc) :
    ApiResponse UserHabitEntryDoc × List UserHabitEntryDoc :=
  match body.habitId, body.userId, body.date, body.status with
  | some hid, some uid, some dateMs, some st =>
    if !(ObjectId.isValid hid && ObjectId.isValid uid) then
      (.err 400 "Invalid ID format for habitId or userId.", entries)
    else
      let entryToInsert : UserHabitEntryDoc :=
        { habitId := ⟨hid⟩, userId := ⟨uid⟩, date := dateMs, status := st,
          notes := body.notes }
      (.ok 201 entryToInsert, entries ++ [entryToInsert])
  | _, _, _, _ =>
    (.err 400 "Missing required entry data (habitId, userId, date, or status).", entries)

/-! ## POST /api/groupHabitEntries (index.js lines 392-453) -/

/-- The parsed body of a group log-entry request. -/
structure GroupEntryBody where
  habitId : Option String
  groupId : Option String
  date : Option Nat
  checkedBy : Option (List String)
  notes : Option (List (String × String))
deriving DecidableEq, Repr

/-- Handler of `POST /api/groupHabitEntries` (index.js lines 392-453): the
`entryToInsert` it builds (lines 430-438) has exactly the fields habitId,
groupId, date, checkedBy and notes — in particular no `userId` field. -/
def createGroupHabitEntry (body : GroupEntryBody)
    (entries : List GroupHabitEntryDoc) :
    ApiResponse GroupHabitEntryDoc × List GroupHabitEntryDoc :=
  match body.habitId, body.groupId, body.date with
  | some hid, some gid, some dateMs =>
    if !(ObjectId.isValid hid && ObjectId.isValid gid) then
      (.err 400 "Invalid ID format for habitId or groupId.", entries)
    else
      match (body.checkedBy.getD []).find? (fun i => !(ObjectId.isValid i)) with
      | some i => (.err 400 ("Invalid checkedBy ID format: " ++ i), entries)
      | none =>
        let entryToInsert : GroupHabitEntryDoc :=
          { habitId := ⟨hid⟩, groupId := ⟨gid⟩, date := dateMs,
            checkedBy := (body.checkedBy.getD []).map (fun i => ⟨i⟩),
            notes := body.notes.getD [], userId := none }
        (.ok 201 entryToInsert, entries ++ [entryToInsert])
  | _, _, _ =>
    (.err 400 "Missing required entry data (habitId, groupId, or date).", entries)

/-- Every group habit entry in the store after a call of the group log-entry
route either was there before or has no `userId` field. -/
theorem createGroupHabitEntry_userId_none (body : GroupEntryBody)
    (entries : List GroupHabitEntryDoc) :
    ∀ e ∈ (createGroupHabitEntry body entries).2, e ∈ entries ∨ e.userId = none := by
  intro e he
  unfold createGroupHabitEntry at he
  rcases hh : body.habitId with _ | hid <;> rcases hg : body.groupId with _ | gid <;>
    rcases hd : body.date with _ | dms <;> simp [hh, hg, hd] at he <;>
    try exact Or.inl he
  split at he
  · exact Or.inl he
  · split at he
    · exact Or.inl he
    · rcases List.mem_append.mp he with h | h
      · exact Or.inl h
      · simp at h
        subst h
        exact Or.inr rfl

/-! ## Read endpoints with an id path parameter -/

/-- Handler of `GET /api/users/:userId/habits` (index.js lines 457-503). -/
def getUserHabits (userId : String) (db : Db) :
    ApiResponse (List HabitDoc) × List DbOp :=
  if ObjectId.isValid userId then
    let userObjectId : ObjectId := ⟨userId⟩
    (.ok 200 (db.habits.filter (fun h =>
        h.createdBy == userObjectId ||
        (h.assignedTo.id == userObjectId && h.assignedTo.type == "user"))),
     [.find "habits"])
  else (.err 400 "Invalid user ID format.", [])

/-- Handler of `GET /api/users/:userId/groups` (index.js lines 507-548). -/
def getUserGroups (userId : String) (db : Db) :
    ApiResponse (List GroupDoc) × List DbOp :=
  if ObjectId.isValid userId then
    let userObjectId : ObjectId := ⟨userId⟩
    (.ok 200 (db.groups.filter (fun g => g.memberIds.contains userObjectId)),
     [.find "groups"])
  else (.err 400 "Invalid user ID format.", [])

/-- Handler of `GET /api/groups/:groupId/habits` (index.js lines 552-594). -/
def getGroupHabits (groupId : String) (db : Db) :
    ApiResponse (List HabitDoc) × List DbOp :=
  if ObjectId.isValid groupId then
    let groupObjectId : ObjectId := ⟨groupId⟩
    (.ok 200 (db.habits.filter (fun h =>
        h.assignedTo.type == "group" && h.assignedTo.id == groupObjectId)),
     [.find "habits"])
  else (.err 400 "Invalid group ID format.", [])

/-- Handler of `GET /api/users/:userId/habitEntries/:date` (index.js lines
661-720).  `dateMs` is the parsed `new Date(dateString)` value; the handler
queries the inclusive range from `setUTCHours(0,0,0,0)` to
`setUTCHours(23,59,59,999)` of that timestamp. -/
def getUserHabitEntriesByDate (userId : String) (dateMs : Nat) (db : Db) :
    ApiResponse (List UserHabitEntryDoc) × List DbOp :=
  if ObjectId.isValid userId then
    let userObjectId : ObjectId := ⟨userId⟩
    let startOfDay := dateMs - dateMs % 86400000
    let endOfDay := dateMs - dateMs % 86400000 + 86399999
    (.ok 200 (db.userHabitEntries.filter (fun e =>
        e.userId == userObjectId && decide (startOfDay ≤ e.date) &&
        decide (e.date ≤ endOfDay))),
     [.find "userHabitEntries"])
  else (.err 400 "Invalid user ID format.", [])

/-- Handler of `GET /api/groups/:groupId/habitEntries/:date` (index.js lines
724-782). -/
def getGroupHabitEntriesByDate (groupId : String) (dateMs : Nat) (db : Db) :
    ApiResponse (List GroupHabitEntryDoc) × List DbOp :=
  if ObjectId.isValid groupId then
    let groupObjectId : ObjectId := ⟨groupId⟩
    let startOfDay := dateMs - dateMs % 86400000
    let endOfDay := dateMs - dateMs % 86400000 + 86399999
    (.ok 200 (db.groupHabitEntries.filter (fun e =>
        e.groupId == groupObjectId && decide (startOfDay ≤ e.date) &&
        decide (e.date ≤ endOfDay))),
     [.find "groupHabitEntries"])
  else (.err 400 "Invalid group ID format.", [])

/-- Handler of `GET /api/users/:userId/createdAt` (index.js lines 1000-1048). -/
def getUserCreatedAt (userId : String) (db : Db) :
    ApiResponse Nat × List DbOp :=
  if ObjectId.isValid userId then
    let userObjectId : ObjectId := ⟨userId⟩
    match db.users.find? (fun u => u._id == userObjectId) with
    | some user => (.ok 200 user.createdAt, [.findOne "users"])
    | none => (.err 404 "User not found.", [.findOne "users"])
  else (.err 400 "Invalid user ID format.", [])

/-! ## GET /api/groups/:groupId/members/completion/:date
(index.js lines 786-894) -/

/-- A JS `Set.add`: appends unless already present. -/
def addToSet (s : List String) (x : String) : List String :=
  if x ∈ s then s else s ++ [x]

/-- One step of index.js lines 861-869: ensure the per-user set exists in
`userCompletionCounts` and add the entry's habit id to it. -/
def uccAdd (m : List (String × List String)) (u habitId : String) :
    List (String × List String) :=
  if m.any (fun p => p.1 == u) then
    m.map (fun p => if p.1 == u then (p.1, addToSet p.2 habitId) else p)
  else m ++ [(u, addToSet [] habitId)]

/-- The `completedEntries.forEach` loop of index.js lines 860-869: for each
entry it evaluates `entry.userId.toString()`.  A group habit entry written by
this API has no `userId` field, so that property access is
`undefined.toString()` and throws a TypeError. -/
def buildUserCompletionCounts :
    List GroupHabitEntryDoc → List (String × List String) →
    Except JsError (List (String × List String))
  | [], acc => .ok acc
  | e :: rest, acc =>
    match e.userId with
    | none => .error .typeError
    | some uid => buildUserCompletionCounts rest (uccAdd acc uid.hex e.habitId.hex)

/-- Lookup of `userCompletionCounts[memberIdString]`, defaulting to the empty
set. -/
def uccLookup (m : List (String × List String)) (u : String) : List String :=
  match m.find? (fun p => p.1 == u) with
  | some p => p.2
  | none => []

/-- One element of the `membersWithCompletion` response array (index.js lines
872-880): the member document (password projected away) with the two counts
attached. -/
structure MemberCompletion where
  _id : ObjectId
  username : String
  email : String
  createdAt : Nat
  completedGroupHabits : Nat
  totalGroupHabits : Nat
deriving DecidableEq, Repr

/-- Handler of `GET /api/groups/:groupId/members/completion/:date`.  When the
forEach loop throws, the catch block (index.js lines 885-893) matches
`error instanceof TypeError` and answers 400 "Invalid date format provided.
Use YYYY-MM-DD.". -/
def getGroupMembersCompletion (groupId : String) (dateMs : Nat) (db : Db) :
    ApiResponse (List MemberCompletion) × List DbOp :=
  if ObjectId.isValid groupId then
    let groupObjectId : ObjectId := ⟨groupId⟩
    let startOfDay := dateMs - dateMs % 86400000
    let endOfDay := dateMs - dateMs % 86400000 + 86399999
    match db.groups.find? (fun g => g._id == groupObjectId) with
    | none => (.err 404 "Group not found.", [.findOne "groups"])
    | some group =>
      let memberIds := group.memberIds
      let members := db.users.filter (fun u => memberIds.contains u._id)
      let groupHabits := db.habits.filter (fun h =>
        h.assignedTo.type == "group" && h.assignedTo.id == groupObjectId)
      let totalGroupHabits := groupHabits.length
      let completedEntries := db.groupHabitEntries.filter (fun e =>
        e.groupId == groupObjectId && decide (startOfDay ≤ e.date) &&
        decide (e.date ≤ endOfDay))
      let allOps : List DbOp :=
        [.findOne "groups", .find "users", .find "habits", .find "groupHabitEntries"]
      match buildUserCompletionCounts completedEntries [] with
      | .error _ => (.err 400 "Invalid date format provided. Use YYYY-MM-DD.", allOps)
      | .ok userCompletionCounts =>
        let membersWithCompletion := members.map (fun member =>
          { _id := member._id, username := member.username, email := member.email,
            createdAt := member.createdAt,
            completedGroupHabits := (uccLookup userCompletionCounts member._id.hex).length,
            totalGroupHabits := totalGroupHabits })
        (.ok 200 membersWithCompletion, allOps)
  else (.err 400 "Invalid group ID format.", [])

/-! ## GET /api/users/:userId/mostLoggedHabit (index.js lines 898-996) -/

/-- The `$group` stage of the aggregation (index.js lines 936-941): one pair
per distinct `habitId` among the matched entries, carrying the number of
entries with that habit id ($sum: 1).  The intermediate `$sort` on count
alone (lines 942-946) only reorders and is subsumed by the final sort. -/
def groupByHabit (entries : List UserHabitEntryDoc) : List (ObjectId × Nat) :=
  (entries.map (fun e => e.habitId)).dedup.map
    (fun h => (h, entries.countP (fun e => e.habitId == h)))

/-- The `$lookup` + `$unwind` stages (index.js lines 947-957): join each
grouped habit id with the habit document of that `_id`; `$unwind` (without
preserveNullAndEmptyArrays) drops groups whose lookup found nothing.
Habit `_id` values are unique, so the join finds at most one document. -/
def lookupHabits (grouped : List (ObjectId × Nat)) (habits : List HabitDoc) :
    List (ObjectId × Nat × HabitDoc) :=
  grouped.filterMap (fun p =>
    (habits.find? (fun h => h._id == p.1)).map (fun h => (p.1, p.2, h)))

/-- The comparator of the final `$sort` stage (index.js lines 958-965):
`a` sorts strictly before `b` when it has a greater count, or an equal count
and an earlier habit `createdAt`. -/
def sortsBefore (a b : ObjectId × Nat × HabitDoc) : Bool :=
  decide (b.2.1 < a.2.1) || (a.2.1 == b.2.1 && decide (a.2.2.createdAt < b.2.2.createdAt))

/-- One selection step: keep the incumbent unless the new element sorts
strictly before it. -/
def pick (best j : ObjectId × Nat × HabitDoc) : ObjectId × Nat × HabitDoc :=
  if sortsBefore j best then j else best

/-- The `$sort` + `$limit: 1` stages: an element of the list that no other
element sorts strictly before (MongoDB leaves the relative order of full
ties unspecified; the fold keeps the earliest such element). -/
def topResult : List (ObjectId × Nat × HabitDoc) → Option (ObjectId × Nat × HabitDoc)
  | [] => none
  | x :: xs => some (xs.foldl pick x)

/-- The matched entries of the aggregation: the `$match` stage (index.js
lines 931-935). -/
def matchedEntries (uid : ObjectId) (db : Db) : List UserHabitEntryDoc :=
  db.userHabitEntries.filter (fun e => e.userId == uid)

/-- The joined groups the final sort ranks: `$match`, `$group`, `$lookup`,
`$unwind` composed. -/
def joinedForUser (uid : ObjectId) (db : Db) : List (ObjectId × Nat × HabitDoc) :=
  lookupHabits (groupByHabit (matchedEntries uid db)) db.habits

/-- The `$project` stage (index.js lines 969-980). -/
structure MostLoggedResult where
  _id : ObjectId
  title : String
  completionCount : Nat
deriving DecidableEq, Repr

/-- Handler of `GET /api/users/:userId/mostLoggedHabit`. -/
def mostLoggedHabit (userId : String) (db : Db) :
    ApiResponse MostLoggedResult × List DbOp :=
  if ObjectId.isValid userId then
    let userObjectId : ObjectId := ⟨userId⟩
    match topResult (joinedForUser userObjectId db) with
    | some r =>
      (.ok 200 { _id := r.2.2._id, title := r.2.2.title, completionCount := r.2.1 },
       [.aggregate "userHabitEntries"])
    | none =>
      (.err 404 "No logged habits found for this user.", [.aggregate "userHabitEntries"])
  else (.err 400 "Invalid user ID format.", [])

/-! ## Claim C5: server-assigned createdAt on habit creation -/

/-- C5: for every habit-creation payload the handler accepts, the stored
habit document's `createdAt` field is the server clock `now`, regardless of
any `createdAt` value the client supplied in the body. -/
theorem createHabit_createdAt_server_assigned (body : Doc) (now : Nat)
    (newId : ObjectId) (rb : Doc) (d : Doc)
    (h : createHabit body now newId = (.ok 201 rb, some d)) :
    Doc.get d "createdAt" = some (.date now) := by
  simp only [createHabit] at h
  split at h
  · simp at h
  · split at h
    · simp at h
    · split at h
      · split at h
        · simp at h
        · rw [Prod.mk.injEq] at h
          obtain ⟨-, h2⟩ := h
          obtain rfl := Option.some.inj h2
          exact Doc.get_set_self _ _ _
      · simp at h

/-- A habit-creation body that tries to smuggle in a client-chosen
`createdAt`. -/
def c5body : Doc :=
  [("title", .str "Read"), ("createdBy", .str "aaaaaaaaaaaa"),
   ("assignedTo", .doc [("type", .str "user"), ("id", .str "bbbbbbbbbbbb")]),
   ("schedule", .str "daily"), ("createdAt", .str "1999-01-01")]

/-- The document the handler inserts for `c5body` at server time 999. -/
def c5doc : Doc := habitToInsert c5body "aaaaaaaaaaaa" "bbbbbbbbbbbb" (.str "user") 999

/-- The 201 response body for `c5body`. -/
def c5rb : Doc :=
  [("message", .str "Habit created successfully!"),
   ("insertedId", .oid ⟨"cccccccccccc"⟩), ("insertedHabit", .doc c5doc)]

theorem createHabit_createdAt_server_assigned_witness :
    Doc.get c5doc "createdAt" = some (.date 999) :=
  createHabit_createdAt_server_assigned c5body 999 ⟨"cccccccccccc"⟩ c5rb c5doc rfl

/-! ## Claim C7: signup response and stored user document -/

/-- C7: for every successful signup, the 201 response body carries the
inserted id, username and email and has no `password` field; the stored user
document's `password` field is the bcrypt hash of the submitted password,
and every string stored in the document is the username, the email or that
hash — the plaintext password is never persisted unless it coincides with
one of those. -/
theorem createUser_response_and_storage (bcryptHash : String → String)
    (u e pw : String) (now : Nat) (newId : ObjectId) :
    ∃ rb d,
      createUser bcryptHash (some u) (some e) (some pw) now newId = (.ok 201 rb, some d) ∧
      Doc.get rb "password" = none ∧
      Doc.get rb "insertedId" = some (.oid newId) ∧
      Doc.get rb "username" = some (.str u) ∧
      Doc.get rb "email" = some (.str e) ∧
      Doc.get d "password" = some (.str (bcryptHash pw)) ∧
      (∀ k v, Doc.get d k = some (.str v) → v = u ∨ v = e ∨ v = bcryptHash pw) := by
  refine ⟨_, _, rfl, rfl, ?_, ?_, ?_, ?_, ?_⟩
  · simp [Doc.get]
  · simp [Doc.get]
  · simp [Doc.get]
  · simp [userToInsert, Doc.get]
  · intro k v h
    simp only [userToInsert, Doc.get] at h
    split at h
    · exact Or.inl (JsValue.str.inj (Option.some.inj h)).symm
    · split at h
      · exact Or.inr (Or.inl (JsValue.str.inj (Option.some.inj h)).symm)
      · split at h
        · exact Or.inr (Or.inr (JsValue.str.inj (Option.some.inj h)).symm)
        · split at h
          · simp at h
          · simp at h

/-! ## Claim C4: uniform 401 on login failure -/

/-- C4: a login naming an email no user has, and a login naming an existing
email with a password the hash comparison rejects, produce literally the
same response: status 401 with the message "Invalid email or password.". -/
theorem login_uniform_401 (compare : String → String → Bool)
    (sign : ObjectId → String → String) (db : Db)
    (e1 pw1 e2 pw2 : String) (u : UserDoc)
    (h1 : ∀ x ∈ db.users, ¬ x.email = e1)
    (h2 : db.users.find? (fun x => x.email == e2) = some u)
    (h3 : compare pw2 u.password = false) :
    login compare sign (some e1) (some pw1) db = .err 401 "Invalid email or password." ∧
    login compare sign (some e2) (some pw2) db = .err 401 "Invalid email or password." := by
  have hf : db.users.find? (fun x => x.email == e1) = none := by
    rw [List.find?_eq_none]
    intro x hx
    simpa using h1 x hx
  constructor
  · simp [login, hf]
  · simp [login, h2, h3]

/-- A store holding one registered user. -/
def c4db : Db :=
  { users := [{ _id := ⟨"aaaaaaaaaaaa"⟩, username := "alice", email := "a@x.com",
                password := "storedhash", createdAt := 0 }],
    groups := [], habits := [], userHabitEntries := [], groupHabitEntries := [] }

theorem login_uniform_401_witness :
    login (fun _ _ => false) (fun _ _ => "tok") (some "b@x.com") (some "pw1") c4db =
      .err 401 "Invalid email or password." ∧
    login (fun _ _ => false) (fun _ _ => "tok") (some "a@x.com") (some "pw2") c4db =
      .err 401 "Invalid email or password." :=
  login_uniform_401 (fun _ _ => false) (fun _ _ => "tok") c4db
    "b@x.com" "pw1" "a@x.com" "pw2"
    { _id := ⟨"aaaaaaaaaaaa"⟩, username := "alice", email := "a@x.com",
      password := "storedhash", createdAt := 0 }
    (by decide) rfl rfl

/-! ## Claim C6: memberIds defaults to [ownerId] -/

/-- C6: a group-creation request that omits `memberIds` inserts a group
document whose `memberIds` is exactly the one-element list holding the
owner id. -/
theorem createGroup_default_memberIds (n : String) (desc : Option String)
    (o : String) (now : Nat) (newId : ObjectId) (groups : List GroupDoc)
    (hv : ObjectId.isValid o = true) :
    createGroup ⟨some n, desc, some o, none⟩ now newId groups =
      (.ok 201 { _id := newId, name := n, description := desc, ownerId := ⟨o⟩,
                 memberIds := [⟨o⟩], createdAt := now },
       groups ++ [{ _id := newId, name := n, description := desc, ownerId := ⟨o⟩,
                    memberIds := [⟨o⟩], createdAt := now }]) := by
  simp [createGroup, createGroupTry, objectIdNew, hv, Bind.bind, Except.bind, Pure.pure, Except.pure]

theorem createGroup_default_memberIds_witness :
    createGroup ⟨some "crew", none, some "aaaaaaaaaaaa", none⟩ 7 ⟨"bbbbbbbbbbbb"⟩ [] =
      (.ok 201 { _id := ⟨"bbbbbbbbbbbb"⟩, name := "crew", description := none,
                 ownerId := ⟨"aaaaaaaaaaaa"⟩, memberIds := [⟨"aaaaaaaaaaaa"⟩], createdAt := 7 },
       [{ _id := ⟨"bbbbbbbbbbbb"⟩, name := "crew", description := none,
          ownerId := ⟨"aaaaaaaaaaaa"⟩, memberIds := [⟨"aaaaaaaaaaaa"⟩], createdAt := 7 }]) :=
  createGroup_default_memberIds "crew" none "aaaaaaaaaaaa" 7 ⟨"bbbbbbbbbbbb"⟩ [] (by decide)

/-! ## Claim C3: invalid memberId on group creation -/

theorem mapObjectIdNew_error (ids : List String) (i : String)
    (hmem : i ∈ ids) (hbad : ObjectId.isValid i = false) :
    mapObjectIdNew ids = .error .bsonError := by
  induction ids with
  | nil => cases hmem
  | cons a rest ih =>
    rcases List.mem_cons.mp hmem with rfl | hmem2
    · simp [mapObjectIdNew, objectIdNew, hbad, Bind.bind, Except.bind, Pure.pure, Except.pure]
    · by_cases ha : ObjectId.isValid a
      · simp [mapObjectIdNew, objectIdNew, ha, ih hmem2, Bind.bind, Except.bind, Pure.pure, Except.pure]
      · simp [mapObjectIdNew, objectIdNew, ha, Bind.bind, Except.bind, Pure.pure, Except.pure]

/-- C3 fails on the code: when the body provides a `memberIds` array holding
a syntactically invalid id, `groupToInsert` converts it with the throwing
`new ObjectId` before the 400-returning validation loop runs, so the request
answers 500 "Failed to create group." — not 400.  No document is inserted
(the groups collection is returned unchanged). -/
theorem createGroup_invalid_memberId_500 (n : String) (desc : Option String)
    (o : String) (ids : List String) (i : String) (now : Nat) (newId : ObjectId)
    (groups : List GroupDoc)
    (hv : ObjectId.isValid o = true) (hmem : i ∈ ids)
    (hbad : ObjectId.isValid i = false) :
    createGroup ⟨some n, desc, some o, some ids⟩ now newId groups =
      (.err 500 "Failed to create group.", groups) := by
  have hm := mapObjectIdNew_error ids i hmem hbad
  simp [createGroup, createGroupTry, objectIdNew, hv, hm, Bind.bind, Except.bind, Pure.pure, Except.pure]

theorem createGroup_invalid_memberId_500_witness :
    createGroup ⟨some "crew", none, some "aaaaaaaaaaaa", some ["zz"]⟩ 7 ⟨"bbbbbbbbbbbb"⟩ [] =
      (.err 500 "Failed to create group.", []) :=
  createGroup_invalid_memberId_500 "crew" none "aaaaaaaaaaaa" ["zz"] "zz" 7
    ⟨"bbbbbbbbbbbb"⟩ [] (by decide) (by decide) (by decide)

/-! ## Claim C8: invalid path identifier yields 400 before any store access -/

/-- C8: on each endpoint that takes an identifier path parameter, a
syntactically invalid identifier yields a 400 response, and the handler
issues no document-store operation before answering (its operation trace is
empty). -/
theorem invalid_id_400_before_any_store_op (s : String) (dateMs : Nat) (db : Db)
    (hs : ObjectId.isValid s = false) :
    getUserHabits s db = (.err 400 "Invalid user ID format.", []) ∧
    getUserGroups s db = (.err 400 "Invalid user ID format.", []) ∧
    getGroupHabits s db = (.err 400 "Invalid group ID format.", []) ∧
    getUserHabitEntriesByDate s dateMs db = (.err 400 "Invalid user ID format.", []) ∧
    getGroupHabitEntriesByDate s dateMs db = (.err 400 "Invalid group ID format.", []) ∧
    getGroupMembersCompletion s dateMs db = (.err 400 "Invalid group ID format.", []) ∧
    mostLoggedHabit s db = (.err 400 "Invalid user ID format.", []) ∧
    getUserCreatedAt s db = (.err 400 "Invalid user ID format.", []) := by
  refine ⟨?_, ?_, ?_, ?_, ?_, ?_, ?_, ?_⟩ <;>
    simp [getUserHabits, getUserGroups, getGroupHabits, getUserHabitEntriesByDate,
          getGroupHabitEntriesByDate, getGroupMembersCompletion, mostLoggedHabit,
          getUserCreatedAt, hs]

theorem invalid_id_400_before_any_store_op_witness :
    getUserHabits "bad" ⟨[], [], [], [], []⟩ = (.err 400 "Invalid user ID format.", []) ∧
    getUserGroups "bad" ⟨[], [], [], [], []⟩ = (.err 400 "Invalid user ID format.", []) ∧
    getGroupHabits "bad" ⟨[], [], [], [], []⟩ = (.err 400 "Invalid group ID format.", []) ∧
    getUserHabitEntriesByDate "bad" 0 ⟨[], [], [], [], []⟩ =
      (.err 400 "Invalid user ID format.", []) ∧
    getGroupHabitEntriesByDate "bad" 0 ⟨[], [], [], [], []⟩ =
      (.err 400 "Invalid group ID format.", []) ∧
    getGroupMembersCompletion "bad" 0 ⟨[], [], [], [], []⟩ =
      (.err 400 "Invalid group ID format.", []) ∧
    mostLoggedHabit "bad" ⟨[], [], [], [], []⟩ = (.err 400 "Invalid user ID format.", []) ∧
    getUserCreatedAt "bad" ⟨[], [], [], [], []⟩ = (.err 400 "Invalid user ID format.", []) :=
  invalid_id_400_before_any_store_op "bad" 0 ⟨[], [], [], [], []⟩ (by decide)

/-! ## Claim C9: per-day entry queries use the inclusive UTC day range -/

/-- C9: the per-day log-entry endpoints return exactly the stored entries of
the given user (respectively group) whose date lies in the inclusive range
from 00:00:00.000 UTC to 23:59:59.999 UTC of the requested day; the final
conjunct identifies that range with "same UTC calendar day as the parsed
date". -/
theorem habitEntries_day_range (s : String) (dateMs : Nat) (db : Db)
    (hv : ObjectId.isValid s = true) :
    (∃ l, getUserHabitEntriesByDate s dateMs db = (.ok 200 l, [.find "userHabitEntries"]) ∧
       ∀ e, e ∈ l ↔ e ∈ db.userHabitEntries ∧ e.userId = ⟨s⟩ ∧
         dateMs - dateMs % 86400000 ≤ e.date ∧
         e.date ≤ dateMs - dateMs % 86400000 + 86399999) ∧
    (∃ l, getGroupHabitEntriesByDate s dateMs db = (.ok 200 l, [.find "groupHabitEntries"]) ∧
       ∀ e, e ∈ l ↔ e ∈ db.groupHabitEntries ∧ e.groupId = ⟨s⟩ ∧
         dateMs - dateMs % 86400000 ≤ e.date ∧
         e.date ≤ dateMs - dateMs % 86400000 + 86399999) ∧
    (∀ t : Nat,
       (dateMs - dateMs % 86400000 ≤ t ∧ t ≤ dateMs - dateMs % 86400000 + 86399999) ↔
       t / 86400000 = dateMs / 86400000) := by
  have h1 : getUserHabitEntriesByDate s dateMs db =
      (.ok 200 (db.userHabitEntries.filter (fun e =>
          e.userId == ObjectId.mk s && decide (dateMs - dateMs % 86400000 ≤ e.date) &&
          decide (e.date ≤ dateMs - dateMs % 86400000 + 86399999))),
       [.find "userHabitEntries"]) := by
    simp only [getUserHabitEntriesByDate, hv, if_true]
  have h2 : getGroupHabitEntriesByDate s dateMs db =
      (.ok 200 (db.groupHabitEntries.filter (fun e =>
          e.groupId == ObjectId.mk s && decide (dateMs - dateMs % 86400000 ≤ e.date) &&
          decide (e.date ≤ dateMs - dateMs % 86400000 + 86399999))),
       [.find "groupHabitEntries"]) := by
    simp only [getGroupHabitEntriesByDate, hv, if_true]
  refine ⟨⟨_, h1, ?_⟩, ⟨_, h2, ?_⟩, ?_⟩
  · intro e
    rw [List.mem_filter]
    simp only [Bool.and_eq_true, decide_eq_true_eq, beq_iff_eq]
    tauto
  · intro e
    rw [List.mem_filter]
    simp only [Bool.and_eq_true, decide_eq_true_eq, beq_iff_eq]
    tauto
  · intro t
    omega

theorem habitEntries_day_range_witness :
    (∃ l, getUserHabitEntriesByDate "aaaaaaaaaaaa" 172800005 ⟨[], [], [], [], []⟩ =
        (.ok 200 l, [.find "userHabitEntries"]) ∧
       ∀ e, e ∈ l ↔ e ∈ ([] : List UserHabitEntryDoc) ∧ e.userId = ⟨"aaaaaaaaaaaa"⟩ ∧
         172800005 - 172800005 % 86400000 ≤ e.date ∧
         e.date ≤ 172800005 - 172800005 % 86400000 + 86399999) ∧
    (∃ l, getGroupHabitEntriesByDate "aaaaaaaaaaaa" 172800005 ⟨[], [], [], [], []⟩ =
        (.ok 200 l, [.find "groupHabitEntries"]) ∧
       ∀ e, e ∈ l ↔ e ∈ ([] : List GroupHabitEntryDoc) ∧ e.groupId = ⟨"aaaaaaaaaaaa"⟩ ∧
         172800005 - 172800005 % 86400000 ≤ e.date ∧
         e.date ≤ 172800005 - 172800005 % 86400000 + 86399999) ∧
    (∀ t : Nat,
       (172800005 - 172800005 % 86400000 ≤ t ∧ t ≤ 172800005 - 172800005 % 86400000 + 86399999) ↔
       t / 86400000 = 172800005 / 86400000) :=
  habitEntries_day_range "aaaaaaaaaaaa" 172800005 ⟨[], [], [], [], []⟩ (by decide)

/-! ## Claim C1: group-completion summary -/

theorem buildUCC_error (l : List GroupHabitEntryDoc) (acc : List (String × List String))
    (hne : l ≠ []) (hnone : ∀ e ∈ l, e.userId = none) :
    buildUserCompletionCounts l acc = .error .typeError := by
  cases l with
  | nil => cases hne rfl
  | cons a rest =>
    have ha := hnone a (by simp)
    simp [buildUserCompletionCounts, ha]

/-- C1 fails on the code: group habit entries written by this API carry no
`userId` field (see `createGroupHabitEntry_userId_none`), yet the summary
loop evaluates `entry.userId.toString()` on every entry of the day.  So as
soon as the group has any log entry in the requested day range — in
particular when a member has confirmed a habit, once or twice — the loop
throws a TypeError and the endpoint answers 400 "Invalid date format
provided. Use YYYY-MM-DD." instead of returning per-member counts. -/
theorem groupCompletion_entry_typeError_400 (s : String) (dateMs : Nat) (db : Db)
    (hv : ObjectId.isValid s = true)
    (hg : ∃ g ∈ db.groups, g._id = ObjectId.mk s)
    (hnone : ∀ e ∈ db.groupHabitEntries, e.userId = none)
    (he : ∃ e ∈ db.groupHabitEntries, e.groupId = ObjectId.mk s ∧
            dateMs - dateMs % 86400000 ≤ e.date ∧
            e.date ≤ dateMs - dateMs % 86400000 + 86399999) :
    (getGroupMembersCompletion s dateMs db).1 =
      .err 400 "Invalid date format provided. Use YYYY-MM-DD." := by
  obtain ⟨g, hgmem, hgid⟩ := hg
  have hfind : (db.groups.find? (fun x => x._id == ObjectId.mk s)).isSome := by
    rw [List.find?_isSome]
    exact ⟨g, hgmem, by simp [hgid]⟩
  obtain ⟨g0, hg0⟩ := Option.isSome_iff_exists.mp hfind
  obtain ⟨e, hemem, he1, he2, he3⟩ := he
  have hemem2 : e ∈ db.groupHabitEntries.filter (fun e =>
      e.groupId == ObjectId.mk s && decide (dateMs - dateMs % 86400000 ≤ e.date) &&
      decide (e.date ≤ dateMs - dateMs % 86400000 + 86399999)) := by
    rw [List.mem_filter]
    exact ⟨hemem, by simp [he1, he2, he3]⟩
  have hne := List.ne_nil_of_mem hemem2
  have hall : ∀ x ∈ db.groupHabitEntries.filter (fun e =>
      e.groupId == ObjectId.mk s && decide (dateMs - dateMs % 86400000 ≤ e.date) &&
      decide (e.date ≤ dateMs - dateMs % 86400000 + 86399999)), x.userId = none :=
    fun x hx => hnone x (List.mem_of_mem_filter hx)
  have hb := buildUCC_error _ [] hne hall
  simp only [getGroupMembersCompletion, hv, if_true, hg0, hb]

/-- A store in which the one member of the one group confirmed the same group
habit twice on day 0: two group-log entries for that habit and day, both, as
written by this API, without a `userId` field. -/
def c1db : Db :=
  { users := [{ _id := ⟨"dddddddddddd"⟩, username := "mem", email := "m@x.com",
                password := "h", createdAt := 0 }],
    groups := [{ _id := ⟨"aaaaaaaaaaaa"⟩, name := "crew", description := none,
                 ownerId := ⟨"dddddddddddd"⟩, memberIds := [⟨"dddddddddddd"⟩],
                 createdAt := 0 }],
    habits := [{ _id := ⟨"eeeeeeeeeeee"⟩, title := "run", createdBy := ⟨"dddddddddddd"⟩,
                 assignedTo := { type := "group", id := ⟨"aaaaaaaaaaaa"⟩ },
                 schedule := "daily", createdAt := 0 }],
    userHabitEntries := [],
    groupHabitEntries :=
      [{ habitId := ⟨"eeeeeeeeeeee"⟩, groupId := ⟨"aaaaaaaaaaaa"⟩, date := 5,
         checkedBy := [⟨"dddddddddddd"⟩], notes := [], userId := none },
       { habitId := ⟨"eeeeeeeeeeee"⟩, groupId := ⟨"aaaaaaaaaaaa"⟩, date := 6,
         checkedBy := [⟨"dddddddddddd"⟩], notes := [], userId := none }] }

theorem groupCompletion_entry_typeError_400_witness :
    (getGroupMembersCompletion "aaaaaaaaaaaa" 5 c1db).1 =
      .err 400 "Invalid date format provided. Use YYYY-MM-DD." :=
  groupCompletion_entry_typeError_400 "aaaaaaaaaaaa" 5 c1db
    (by decide) (by decide) (by decide) (by decide)

/-! ## Claim C10: entries whose habit lookup finds nothing are dropped -/

theorem groupByHabit_key_mem (l : List UserHabitEntryDoc) (p : ObjectId × Nat)
    (hp : p ∈ groupByHabit l) : ∃ e ∈ l, e.habitId = p.1 := by
  unfold groupByHabit at hp
  obtain ⟨h, hh, hph⟩ := List.mem_map.mp hp
  obtain ⟨e, he, rfl⟩ := List.mem_map.mp (List.mem_dedup.mp hh)
  exact ⟨e, he, by rw [← hph]⟩

/-- C10: when every log entry of the user references a habit id with no
matching habit document, the `$lookup`-then-`$unwind` stages drop every
group, so the endpoint answers 404 even though the user has entries. -/
theorem mostLoggedHabit_dangling_404 (s : String) (db : Db)
    (hv : ObjectId.isValid s = true)
    (hdangling : ∀ e ∈ db.userHabitEntries, e.userId = ObjectId.mk s →
       ∀ h ∈ db.habits, ¬ h._id = e.habitId) :
    (mostLoggedHabit s db).1 = .err 404 "No logged habits found for this user." := by
  have hjoined : joinedForUser (ObjectId.mk s) db = [] := by
    unfold joinedForUser lookupHabits
    rw [List.filterMap_eq_nil_iff]
    intro p hp
    obtain ⟨e, he, hpe⟩ := groupByHabit_key_mem _ p hp
    have hem := List.mem_filter.mp he
    have heu : e.userId = ObjectId.mk s := by simpa using hem.2
    have hfind : db.habits.find? (fun h => h._id == p.1) = none := by
      rw [List.find?_eq_none]
      intro h hh
      have := hdangling e hem.1 heu h hh
      simp [← hpe, this]
    simp [hfind]
  simp [mostLoggedHabit, hv, hjoined, topResult]

/-- A store in which the user has one log entry, referencing a habit id that
no habit document has. -/
def c10db : Db :=
  { users := [], groups := [],
    habits := [{ _id := ⟨"eeeeeeeeeeee"⟩, title := "other", createdBy := ⟨"aaaaaaaaaaaa"⟩,
                 assignedTo := { type := "user", id := ⟨"aaaaaaaaaaaa"⟩ },
                 schedule := "daily", createdAt := 0 }],
    userHabitEntries := [{ habitId := ⟨"ffffffffffff"⟩, userId := ⟨"aaaaaaaaaaaa"⟩,
                           date := 0, status := "completed", notes := none }],
    groupHabitEntries := [] }

theorem mostLoggedHabit_dangling_404_witness :
    (mostLoggedHabit "aaaaaaaaaaaa" c10db).1 =
      .err 404 "No logged habits found for this user." :=
  mostLoggedHabit_dangling_404 "aaaaaaaaaaaa" c10db (by decide) (by decide)

/-! ## Claim C2: the top-ranked habit -/

theorem sortsBefore_iff (a b : ObjectId × Nat × HabitDoc) :
    sortsBefore a b = true ↔
      b.2.1 < a.2.1 ∨ (a.2.1 = b.2.1 ∧ a.2.2.createdAt < b.2.2.createdAt) := by
  simp [sortsBefore]

theorem sortsBefore_false_iff (a b : ObjectId × Nat × HabitDoc) :
    sortsBefore a b = false ↔
      ¬(b.2.1 < a.2.1 ∨ (a.2.1 = b.2.1 ∧ a.2.2.createdAt < b.2.2.createdAt)) := by
  rw [← sortsBefore_iff]
  simp

theorem foldl_pick_spec (xs : List (ObjectId × Nat × HabitDoc))
    (x : ObjectId × Nat × HabitDoc) :
    (xs.foldl pick x = x ∨ xs.foldl pick x ∈ xs) ∧
    sortsBefore x (xs.foldl pick x) = false ∧
    ∀ j ∈ xs, sortsBefore j (xs.foldl pick x) = false := by
  induction xs generalizing x with
  | nil =>
    refine ⟨Or.inl rfl, ?_, by simp⟩
    rw [show List.foldl pick x [] = x from rfl, sortsBefore_false_iff]
    omega
  | cons y ys ih =>
    simp only [List.foldl_cons]
    by_cases hyx : sortsBefore y x = true
    · have hpy : pick x y = y := by simp [pick, hyx]
      rw [hpy]
      obtain ⟨hmem, hx', hall⟩ := ih y
      refine ⟨?_, ?_, ?_⟩
      · rcases hmem with h | h
        · exact Or.inr (by rw [h]; exact List.mem_cons_self y ys)
        · exact Or.inr (List.mem_cons_of_mem y h)
      · rw [sortsBefore_iff] at hyx
        rw [sortsBefore_false_iff] at hx' ⊢
        omega
      · intro j hj
        rcases List.mem_cons.mp hj with rfl | hj2
        · exact hx'
        · exact hall j hj2
    · have hpy : pick x y = x := by simp [pick, hyx]
      rw [hpy]
      obtain ⟨hmem, hx', hall⟩ := ih x
      refine ⟨?_, hx', ?_⟩
      · rcases hmem with h | h
        · exact Or.inl h
        · exact Or.inr (List.mem_cons_of_mem y h)
      · intro j hj
        rcases List.mem_cons.mp hj with rfl | hj2
        · have hyx2 : sortsBefore j x = false := by
            simpa using hyx
          rw [sortsBefore_false_iff] at hyx2 hx' ⊢
          omega
        · exact hall j hj2

theorem topResult_spec (l : List (ObjectId × Nat × HabitDoc))
    (r : ObjectId × Nat × HabitDoc) (h : topResult l = some r) :
    r ∈ l ∧ ∀ j ∈ l, sortsBefore j r = false := by
  cases l with
  | nil => cases h
  | cons x xs =>
    obtain ⟨hmem, hx, hall⟩ := foldl_pick_spec xs x
    have hr : r = xs.foldl pick x := by
      simpa [topResult] using h.symm
    subst hr
    constructor
    · rcases hmem with h2 | h2
      · rw [h2]
        exact List.mem_cons_self x xs
      · exact List.mem_cons_of_mem x h2
    · intro j hj
      rcases List.mem_cons.mp hj with rfl | hj2
      · exact hx
      · exact hall j hj2

theorem joined_count (uid : ObjectId) (db : Db) (j : ObjectId × Nat × HabitDoc)
    (hj : j ∈ joinedForUser uid db) :
    j.2.1 = (matchedEntries uid db).countP (fun e => e.habitId == j.1) := by
  unfold joinedForUser lookupHabits at hj
  obtain ⟨p, hp, hpj⟩ := List.mem_filterMap.mp hj
  obtain ⟨h0, hfind, hj0⟩ := Option.map_eq_some'.mp hpj
  unfold groupByHabit at hp
  obtain ⟨h, hh, hph⟩ := List.mem_map.mp hp
  subst hj0
  subst hph
  rfl

theorem joinedForUser_ne_nil_iff (s : String) (db : Db) :
    joinedForUser (ObjectId.mk s) db ≠ [] ↔
      ∃ e ∈ db.userHabitEntries, e.userId = ObjectId.mk s ∧
        ∃ h ∈ db.habits, h._id = e.habitId := by
  constructor
  · intro hne
    obtain ⟨j, hj⟩ := List.exists_mem_of_ne_nil _ hne
    unfold joinedForUser lookupHabits at hj
    obtain ⟨p, hp, hpj⟩ := List.mem_filterMap.mp hj
    obtain ⟨h0, hfind, hj0⟩ := Option.map_eq_some'.mp hpj
    obtain ⟨e, he, hpe⟩ := groupByHabit_key_mem _ p hp
    have hem := List.mem_filter.mp he
    refine ⟨e, hem.1, by simpa using hem.2, h0, List.mem_of_find?_eq_some hfind, ?_⟩
    have hid := List.find?_some hfind
    simp only [beq_iff_eq] at hid
    rw [hid, hpe]
  · rintro ⟨e, he, heu, h0, hh0, hid⟩
    have hematch : e ∈ matchedEntries (ObjectId.mk s) db := by
      rw [matchedEntries, List.mem_filter]
      exact ⟨he, by simp [heu]⟩
    have hkey : e.habitId ∈
        (List.map (fun e => e.habitId) (matchedEntries (ObjectId.mk s) db)).dedup := by
      rw [List.mem_dedup]
      exact List.mem_map_of_mem _ hematch
    have hp : (e.habitId, (matchedEntries (ObjectId.mk s) db).countP
        (fun x => x.habitId == e.habitId)) ∈
        groupByHabit (matchedEntries (ObjectId.mk s) db) := by
      unfold groupByHabit
      exact List.mem_map_of_mem _ hkey
    have hfind : (db.habits.find? (fun h => h._id == e.habitId)).isSome := by
      rw [List.find?_isSome]
      exact ⟨h0, hh0, by simp [hid]⟩
    obtain ⟨h1, hh1⟩ := Option.isSome_iff_exists.mp hfind
    apply List.ne_nil_of_mem
      (a := (e.habitId, (matchedEntries (ObjectId.mk s) db).countP
        (fun x => x.habitId == e.habitId), h1))
    unfold joinedForUser lookupHabits
    rw [List.mem_filterMap]
    exact ⟨_, hp, by simp [hh1]⟩

/-- C2 (amended): the endpoint ranks only those of the user's logged habits
whose habit document exists.  The first conjunct characterises when that set
is non-empty; when it is empty (no entries at all, or only entries whose
habit id matches no habit document) the endpoint answers 404; otherwise it
answers 200 with exactly one result, drawn from the joined groups, whose
count is the number of the user's entries for that habit, and which no other
joined group outranks — a greater entry count, or an equal count and an
earlier habit `createdAt`, would outrank it (so on counts {habitA: 3,
habitB: 3} with habitB created first, habitB wins). -/
theorem mostLoggedHabit_top_amended (s : String) (db : Db)
    (hv : ObjectId.isValid s = true) :
    (joinedForUser (ObjectId.mk s) db ≠ [] ↔
       ∃ e ∈ db.userHabitEntries, e.userId = ObjectId.mk s ∧
         ∃ h ∈ db.habits, h._id = e.habitId) ∧
    (joinedForUser (ObjectId.mk s) db = [] →
       (mostLoggedHabit s db).1 = .err 404 "No logged habits found for this user.") ∧
    (joinedForUser (ObjectId.mk s) db ≠ [] →
       ∃ r ∈ joinedForUser (ObjectId.mk s) db,
         (mostLoggedHabit s db).1 =
           .ok 200 { _id := r.2.2._id, title := r.2.2.title, completionCount := r.2.1 } ∧
         r.2.1 = (matchedEntries (ObjectId.mk s) db).countP (fun e => e.habitId == r.1) ∧
         ∀ j ∈ joinedForUser (ObjectId.mk s) db, sortsBefore j r = false) := by
  refine ⟨joinedForUser_ne_nil_iff s db, ?_, ?_⟩
  · intro hnil
    simp [mostLoggedHabit, hv, hnil, topResult]
  · intro hne
    rcases hl : joinedForUser (ObjectId.mk s) db with _ | ⟨x, xs⟩
    · exact absurd hl hne
    · have htop : topResult (joinedForUser (ObjectId.mk s) db) = some (xs.foldl pick x) := by
        rw [hl]
        rfl
      obtain ⟨hmem, hall⟩ := topResult_spec _ _ htop
      rw [hl] at hmem hall
      have hmem2 : xs.foldl pick x ∈ joinedForUser (ObjectId.mk s) db := by
        rw [hl]
        exact hmem
      exact ⟨xs.foldl pick x, hmem,
        by simp only [mostLoggedHabit, hv, if_true, htop],
        joined_count (ObjectId.mk s) db _ hmem2, hall⟩

/-- A store whose one user entry references a habit id with no habit
document: the user has an entry, yet the endpoint answers 404. -/
def c2db : Db :=
  { users := [], groups := [], habits := [],
    userHabitEntries := [{ habitId := ⟨"ffffffffffff"⟩, userId := ⟨"aaaaaaaaaaaa"⟩,
                           date := 0, status := "completed", notes := none }],
    groupHabitEntries := [] }

/-- C2 as frozen is false on the code: in `c2db` the user
aaaaaaaaaaaa has one log entry, yet the most-logged-habit endpoint answers
404 rather than returning one result. -/
theorem mostLoggedHabit_counterexample :
    (∃ e, e ∈ c2db.userHabitEntries ∧ e.userId = ObjectId.mk "aaaaaaaaaaaa") ∧
    (mostLoggedHabit "aaaaaaaaaaaa" c2db).1 =
      .err 404 "No logged habits found for this user." := by
  constructor
  · exact ⟨{ habitId := ⟨"ffffffffffff"⟩, userId := ⟨"aaaaaaaaaaaa"⟩, date := 0,
             status := "completed", notes := none }, by simp [c2db], rfl⟩
  · rfl

/-- A store realising the tie of the claim: habitA and habitB each have three
entries for the user, habitB (id aaaaaaaaaaac) was created at time 5,
habitA (id aaaaaaaaaaab) at time 10. -/
def c2wdb : Db :=
  { users := [], groups := [],
    habits := [{ _id := ⟨"aaaaaaaaaaab"⟩, title := "habitA", createdBy := ⟨"aaaaaaaaaaaa"⟩,
                 assignedTo := { type := "user", id := ⟨"aaaaaaaaaaaa"⟩ },
                 schedule := "daily", createdAt := 10 },
               { _id := ⟨"aaaaaaaaaaac"⟩, title := "habitB", createdBy := ⟨"aaaaaaaaaaaa"⟩,
                 assignedTo := { type := "user", id := ⟨"aaaaaaaaaaaa"⟩ },
                 schedule := "daily", createdAt := 5 }],
    userHabitEntries :=
      [{ habitId := ⟨"aaaaaaaaaaab"⟩, userId := ⟨"aaaaaaaaaaaa"⟩, date := 1,
         status := "completed", notes := none },
       { habitId := ⟨"aaaaaaaaaaab"⟩, userId := ⟨"aaaaaaaaaaaa"⟩, date := 2,
         status := "completed", notes := none },
       { habitId := ⟨"aaaaaaaaaaab"⟩, userId := ⟨"aaaaaaaaaaaa"⟩, date := 3,
         status := "completed", notes := none },
       { habitId := ⟨"aaaaaaaaaaac"⟩, userId := ⟨"aaaaaaaaaaaa"⟩, date := 1,
         status := "completed", notes := none },
       { habitId := ⟨"aaaaaaaaaaac"⟩, userId := ⟨"aaaaaaaaaaaa"⟩, date := 2,
         status := "completed", notes := none },
       { habitId := ⟨"aaaaaaaaaaac"⟩, userId := ⟨"aaaaaaaaaaaa"⟩, date := 3,
         status := "completed", notes := none }],
    groupHabitEntries := [] }

theorem mostLoggedHabit_top_amended_witness :
    (joinedForUser (ObjectId.mk "aaaaaaaaaaaa") c2wdb ≠ [] ↔
       ∃ e ∈ c2wdb.userHabitEntries, e.userId = ObjectId.mk "aaaaaaaaaaaa" ∧
         ∃ h ∈ c2wdb.habits, h._id = e.habitId) ∧
    (joinedForUser (ObjectId.mk "aaaaaaaaaaaa") c2wdb = [] →
       (mostLoggedHabit "aaaaaaaaaaaa" c2wdb).1 =
         .err 404 "No logged habits found for this user.") ∧
    (joinedForUser (ObjectId.mk "aaaaaaaaaaaa") c2wdb ≠ [] →
       ∃ r ∈ joinedForUser (ObjectId.mk "aaaaaaaaaaaa") c2wdb,
         (mostLoggedHabit "aaaaaaaaaaaa" c2wdb).1 =
           .ok 200 { _id := r.2.2._id, title := r.2.2.title, completionCount := r.2.1 } ∧
         r.2.1 = (matchedEntries (ObjectId.mk "aaaaaaaaaaaa") c2wdb).countP
           (fun e => e.habitId == r.1) ∧
         ∀ j ∈ joinedForUser (ObjectId.mk "aaaaaaaaaaaa") c2wdb, sortsBefore j r = false) :=
  mostLoggedHabit_top_amended "aaaaaaaaaaaa" c2wdb (by decide)

/-- Concrete check of the tie rule of the claim: in `c2wdb`, with counts
habitA 3 and habitB 3 and habitB created first, the endpoint returns
habitB. -/
theorem mostLoggedHabit_tie_example :
    (mostLoggedHabit "aaaaaaaaaaaa" c2wdb).1 =
      .ok 200 { _id := ⟨"aaaaaaaaaaac"⟩, title := "habitB", completionCount := 3 } := by
  rfl
